import Mathlib

/-!
Shallow embedding of the Resume-Analyzer candidate-screening pipeline:
the hybrid scoring engine (`app/tasks/scoring_tasks.py`), the document
extractor (`app/tasks/resume_tasks.py`), the config generator
(`app/services/ai_job_config.py` + `app/schemas/job.py`), the job CRUD
status updates (`app/crud/job.py`, `app/tasks/job_tasks.py`) and the
quota-gated upload endpoint (`app/api/endpoints/candidates.py`,
`app/models/subscription.py`).

Python strings are modelled as `List Char` (`str.lower()` becomes a
character-wise `Char.toLower`, an ASCII-faithful rendering of Python's
Unicode lowercasing), JSON dicts as association lists
in insertion order, and the database as explicit record lists with the
list of successively committed states made explicit where a claim
depends on commit boundaries.

`round(x, 1)` of the scoring engine always produces an exact multiple
of `1/10` (its argument is a ratio of integers; Python rounds
half-to-even), so match scores are represented throughout in *tenths of
a point* as integers: a stored `match_score` of `73.3` is the integer
`733` here. This keeps every definition computable by kernel reduction
while preserving exactly the arithmetic the code performs; binary
floating-point representation error of the final stored value is the
one aspect abstracted away.
-/

namespace ResumeAnalyzer

/-- A Python string: its sequence of characters. -/
abbrev Str := List Char

/-- Convenience injection of Lean string literals into the `Str` model. -/
def str (s : String) : Str := s.data

/-- Python's `str.lower()` (restricted to its ASCII behaviour). -/
def pyLower (s : Str) : Str := s.map Char.toLower

/-! ## Rounding: Python's `round` (banker's rounding) on exact ratios -/

/-- Round-half-to-even of the rational `a / b` (for `b > 0`), as Python's
builtin `round` behaves on exactly representable values: `n = ⌊a/b⌋`,
then compare the fractional remainder with `1/2`, ties to the even
neighbour. -/
def roundHalfEven (a b : ℤ) : ℤ :=
  let n := a.fdiv b
  let r := a.fmod b
  if 2 * r < b then n
  else if b < 2 * r then n + 1
  else if n % 2 = 0 then n else n + 1

/-- Python's `round(a / b, 1)` expressed in tenths: the integer `t` such
that the rounded value is `t / 10`. -/
def roundTo1Tenths (a b : ℤ) : ℤ := roundHalfEven (10 * a) b

/-! ## Scoring engine data model (`score_candidate_task`)

The AI response's `category_scores` is a JSON object mapping category
names to values that are *expected* to be dicts
`{"score": int, "reasoning": str}` but are handled defensively by the
code (`if ai_cat_data and isinstance(ai_cat_data, dict)`), so a value is
modelled as either a dict with optional `score` / `reasoning` fields or
some other (non-dict) JSON value with its truthiness. -/

/-- A value of the AI's `category_scores` JSON object. -/
inductive AIValue where
  | obj (score : Option ℤ) (reasoning : Option Str)
  | other (truthy : Bool)
deriving DecidableEq

/-- Python truthiness of an `AIValue` (a dict is truthy iff nonempty;
we model only the two fields the code reads). -/
def AIValue.pyTruthy : AIValue → Bool
  | .obj s r => s.isSome || r.isSome
  | .other t => t

/-- `isinstance(v, dict)`. -/
def AIValue.isDict : AIValue → Bool
  | .obj _ _ => true
  | .other _ => false

/-- The dict's `"score"` field (`v.get("score", 0)` reads this with default 0). -/
def AIValue.scoreField : AIValue → Option ℤ
  | .obj s _ => s
  | .other _ => none

/-- The AI's `category_scores` object: an association list in insertion
order with (dict-)unique keys not enforced structurally; lookups follow
first-match order exactly as Python's `in` / iteration do. -/
abbrev AIScores := List (Str × AIValue)

/-- One category of the job config as stored JSON (`job_config["categories"][i]`),
read defensively by the code via `category.get("name", "")` and
`category.get("importance", 1)`. -/
structure Category where
  name : Option Str
  importance : Option ℤ
deriving DecidableEq

/-- `category.get("name", "")`. -/
def Category.catName (c : Category) : Str := c.name.getD []

/-- `category.get("importance", 1)` — missing importance defaults to 1. -/
def Category.catImportance (c : Category) : ℤ := c.importance.getD 1

/-- Grade lookup of `score_candidate_task` (lines 233–243): exact key
match first (`cat_name in ai_scores`), else the first key, in insertion
order, equal under `str.lower()`. -/
def lookupGrade (ai : AIScores) (name : Str) : Option AIValue :=
  match ai.find? (fun kv => kv.1 == name) with
  | some kv => some kv.2
  | none => (ai.find? (fun kv => pyLower kv.1 == pyLower name)).map (·.2)

/-- Score extraction of `score_candidate_task` (lines 245–250):
`ai_cat_data.get("score", 0)` when the looked-up value is a truthy dict,
`0` otherwise (including when the category was not found at all). -/
def extractScore (v : Option AIValue) : ℤ :=
  match v with
  | some d => if d.pyTruthy && d.isDict then d.scoreField.getD 0 else 0
  | none => 0

/-- The score the engine uses for one taxonomy category. -/
def scoreFor (ai : AIScores) (c : Category) : ℤ :=
  extractScore (lookupGrade ai c.catName)

/-- `total_weighted_score` after the loop over `job_config["categories"]`:
`Σ score_i · importance_i` (the Python accumulator is a float holding an
exact integer here). -/
def totalWeightedScore (cats : List Category) (ai : AIScores) : ℤ :=
  (cats.map (fun c => scoreFor ai c * c.catImportance)).sum

/-- `total_importance` after the loop: `Σ importance_i`. -/
def totalImportance (cats : List Category) : ℤ :=
  (cats.map Category.catImportance).sum

/-- `final_match_score` (lines 259–264) in tenths of a point:
`round(total_weighted_score / total_importance, 1)` when
`total_importance > 0`, else `0`. No clamping is performed. -/
def finalMatchScore (cats : List Category) (ai : AIScores) : ℤ :=
  if 0 < totalImportance cats then
    roundTo1Tenths (totalWeightedScore cats ai) (totalImportance cats)
  else 0

/-! ### Spec-side definitions (for refinement comparison only) -/

/-- Written from the spec's words, in tenths: `match_score =
round(Σ(score_i × importance_i) / Σ(importance_i), 1)`, `0` when
`Σ importance_i == 0`, "clamped to [0,100]" (i.e. to `[0, 1000]` tenths). -/
def specMatchScoreClamped (cats : List Category) (ai : AIScores) : ℤ :=
  let raw : ℤ :=
    if totalImportance cats = 0 then 0
    else roundTo1Tenths (totalWeightedScore cats ai) (totalImportance cats)
  min 1000 (max 0 raw)

/-- Written from the spec's words minus the clamp, in tenths: the rounded
weighted average, `0` when the importance sum is zero. -/
def specMatchScoreNoClamp (cats : List Category) (ai : AIScores) : ℤ :=
  if totalImportance cats = 0 then 0
  else roundTo1Tenths (totalWeightedScore cats ai) (totalImportance cats)

/-- Written from the spec's words: look up the AI's grade by exact name
match, falling back to case-insensitive match. -/
def specLookup (ai : AIScores) (name : Str) : Option AIValue :=
  match ai.find? (fun kv => kv.1 == name) with
  | some kv => some kv.2
  | none => (ai.find? (fun kv => pyLower kv.1 == pyLower name)).map (·.2)

/-! ## Evaluation persistence (`score_candidate_task`, lines 272–295)

The `evaluations` table is a list of rows; `candidate_id` carries a
unique constraint in the model (`app/models/evaluation.py`, line 33),
expressed as the invariant that at most one row per candidate id exists. -/

/-- One row of the `evaluations` table. -/
structure EvalRecord where
  tenantId : ℕ
  candidateId : ℕ
  matchScore : ℤ
  categoryScores : AIScores
  summary : Str
  pros : List Str
  cons : List Str
deriving DecidableEq

/-- The idempotency step of `score_candidate_task`: query the first
existing evaluation for the candidate and delete it if present, then
insert the freshly built row. -/
def saveEvaluation (evals : List EvalRecord) (newEval : EvalRecord) : List EvalRecord :=
  (evals.eraseP (fun e => e.candidateId == newEval.candidateId)) ++ [newEval]

/-! ## Candidate rows and statuses (`app/models/candidate.py`) -/

/-- `CandidateStatus`: UPLOADED → PROCESSING → PARSED → SCORED, FAILED at
any stage. -/
inductive CandidateStatus where
  | uploaded | processing | parsed | scored | failed
deriving DecidableEq

/-- One row of the `candidates` table (the fields the pipeline touches). -/
structure CandidateRec where
  id : ℕ
  jobId : ℕ
  firstName : Option Str
  lastName : Option Str
  email : Option Str
  originalFilename : Str
  filePath : Str
  resumeText : Option Str
  status : CandidateStatus
  errorMessage : Option Str
deriving DecidableEq

/-! ## Quota gate and resume upload (`upload_resume`, `Subscription`) -/

/-- Stripe-mirroring subscription lifecycle states. -/
inductive SubscriptionStatus where
  | incomplete | incompleteExpired | trialing | active | pastDue | canceled | unpaid
deriving DecidableEq

/-- The subscription fields the quota gate reads
(`app/models/subscription.py`). -/
structure Subscription where
  status : SubscriptionStatus
  monthlyCandidateLimit : ℤ
  candidatesUsedThisMonth : ℤ
deriving DecidableEq

/-- `Subscription.is_active`: status in {ACTIVE, TRIALING}. -/
def Subscription.isActive (s : Subscription) : Bool :=
  s.status == .active || s.status == .trialing

/-- `Subscription.can_upload_candidate` (lines 150–153):
`is_active and candidates_used_this_month < monthly_candidate_limit`. -/
def Subscription.canUploadCandidate (s : Subscription) : Bool :=
  s.isActive && s.candidatesUsedThisMonth < s.monthlyCandidateLimit

/-- The outcomes `upload_resume` can reject with, and the HTTP status it
raises for each. -/
inductive UploadError where
  | rateLimited | quotaExceeded | jobNotFound | unsupportedType | storageFailed | dbInsertFailed
deriving DecidableEq

/-- HTTP status code of each `HTTPException` raised by `upload_resume`
(429 comes from `check_candidate_upload_rate_limit`). -/
def UploadError.statusCode : UploadError → ℕ
  | .rateLimited => 429
  | .quotaExceeded => 402
  | .jobNotFound => 404
  | .unsupportedType => 400
  | .storageFailed => 500
  | .dbInsertFailed => 500

/-- `ALLOWED_CONTENT_TYPES` of `upload_resume`. -/
def ALLOWED_CONTENT_TYPES : List Str :=
  [str "application/pdf", str "application/msword",
   str "application/vnd.openxmlformats-officedocument.wordprocessingml.document"]

/-- `ALLOWED_EXTENSIONS` of `upload_resume`. -/
def ALLOWED_EXTENSIONS : List Str := [str ".pdf", str ".doc", str ".docx"]

/-- One upload request: the client-supplied data plus the declared
content type and the filename's extension as already split off by
`os.path.splitext` (splitting itself is not re-modelled). -/
structure UploadRequest where
  jobId : ℕ
  filename : Str
  fileExt : Str
  contentType : Str
  firstName : Option Str
  lastName : Option Str
  email : Option Str
deriving DecidableEq

/-- Environment of one `upload_resume` call: whether each external
collaborator succeeds, the id the insert will allocate, and the storage
ref `storage.upload_file` returns. -/
structure UploadEnv where
  rateLimitOk : Bool
  jobExistsForTenant : Bool
  storageOk : Bool
  dbOk : Bool
  newCandidateId : ℕ
  storedFileRef : Str
deriving DecidableEq

/-- Persisted system state seen by `upload_resume`: the artifact store,
the `candidates` table, the tenant's subscription row, and the queue of
enqueued parse tasks (candidate ids). -/
structure SysState where
  storedFiles : List Str
  candidates : List CandidateRec
  subscription : Subscription
  parseQueue : List ℕ
deriving DecidableEq

/-- The `Candidate(...)` row `upload_resume` constructs (lines 130–139). -/
def newCandidate (env : UploadEnv) (req : UploadRequest) : CandidateRec :=
  { id := env.newCandidateId, jobId := req.jobId,
    firstName := req.firstName, lastName := req.lastName, email := req.email,
    originalFilename := req.filename, filePath := env.storedFileRef,
    resumeText := none, status := .uploaded, errorMessage := none }

/-- `upload_resume` (`app/api/endpoints/candidates.py`, lines 36–174),
with every check in source order. Returns the endpoint result, the final
state, and the list of states persisted by each `db.commit()` in order
(two commits on success: candidate insert, then usage-counter
increment). File storage happens between the quota/validation checks and
the first commit; on a failed insert the stored file is deleted again. -/
def uploadResume (env : UploadEnv) (req : UploadRequest) (st : SysState) :
    Except UploadError ℕ × SysState × List SysState :=
  if !env.rateLimitOk then (.error .rateLimited, st, [])
  else if !st.subscription.canUploadCandidate then (.error .quotaExceeded, st, [])
  else if !env.jobExistsForTenant then (.error .jobNotFound, st, [])
  else if !(ALLOWED_CONTENT_TYPES.contains req.contentType)
          && !(ALLOWED_EXTENSIONS.contains (pyLower req.fileExt)) then
    (.error .unsupportedType, st, [])
  else if !env.storageOk then (.error .storageFailed, st, [])
  else
    let stStored : SysState := { st with storedFiles := st.storedFiles ++ [env.storedFileRef] }
    if !env.dbOk then
      -- insert failed: `storage.delete_file(file_path)` cleanup, then 500
      (.error .dbInsertFailed, st, [])
    else
      let cand : CandidateRec := newCandidate env req
      let stInserted := { stStored with candidates := stStored.candidates ++ [cand] }
      let stCounted := { stInserted with subscription :=
        { stInserted.subscription with candidatesUsedThisMonth :=
            stInserted.subscription.candidatesUsedThisMonth + 1 } }
      let stQueued := { stCounted with parseQueue := stCounted.parseQueue ++ [cand.id] }
      (.ok cand.id, stQueued, [stInserted, stCounted])

/-! ## Document extraction (`parse_resume_task`, lines 99–145) -/

/-- `MAX_PAGES = 6`. -/
def MAX_PAGES : ℕ := 6

/-- `MAX_CHARS = 25000`. -/
def MAX_CHARS : ℕ := 25000

/-- Python's `str.strip()` (whitespace trim on both ends). -/
def pyStrip (s : Str) : Str :=
  ((s.dropWhile Char.isWhitespace).reverse.dropWhile Char.isWhitespace).reverse

/-- The PDF page loop (lines 110–123): for each page of the first
`MAX_PAGES`, append `extract_text() + "\n"` when the page text is truthy
(an empty element models both `None` and `""`), truncating to
`MAX_CHARS` and stopping as soon as the accumulator exceeds the cap. -/
def pdfAccum : List Str → Str → Str
  | [], acc => acc
  | t :: rest, acc =>
    if t.isEmpty then pdfAccum rest acc
    else
      let acc' := acc ++ t ++ ['\n']
      if MAX_CHARS < acc'.length then acc'.take MAX_CHARS
      else pdfAccum rest acc'

/-- PDF extraction: only `pdf.pages[:MAX_PAGES]` are visited. -/
def extractPdf (pages : List Str) : Str := pdfAccum (pages.take MAX_PAGES) []

/-- DOCX extraction (lines 125–132): `docx2txt.process(...)[:MAX_CHARS]`. -/
def extractDocx (fullText : Str) : Str := fullText.take MAX_CHARS

/-- The document as the extractor sees it, keyed by the branch the
lowercased filename extension selects. -/
inductive DocContent where
  | pdf (pages : List Str)
  | docx (fullText : Str)
  | doc
  | unknown (ext : Str)
deriving DecidableEq

/-- The deterministic failure modes of extraction (each a distinct
`ValueError`/`FileNotFoundError` message in the source). -/
inductive ParseError where
  | fileNotFound
  | unsupportedLegacyDoc
  | unsupportedFormat (ext : Str)
  | emptyExtraction
deriving DecidableEq

/-- The empty-text check (lines 144–145): `if not extracted_text.strip()`
raise, else the text is kept. -/
def finishExtraction (t : Str) : Except ParseError Str :=
  if (pyStrip t).isEmpty then .error .emptyExtraction else .ok t

/-- Format dispatch plus extraction plus the emptiness check, exactly as
the task body orders them (`.doc` and unknown extensions raise before
any emptiness check can run). -/
def extractText : DocContent → Except ParseError Str
  | .pdf pages => finishExtraction (extractPdf pages)
  | .docx t => finishExtraction (extractDocx t)
  | .doc => .error .unsupportedLegacyDoc
  | .unknown e => .error (.unsupportedFormat e)

/-- Human-readable `error_message` strings written on failure
(abbreviated renderings of the source's `ValueError` texts; the claims
depend on their distinctness, not their wording). -/
def parseErrorMessage : ParseError → Str
  | .fileNotFound => str "File not found"
  | .unsupportedLegacyDoc => str "Legacy .doc format is not supported"
  | .unsupportedFormat e => str "Unsupported file format: " ++ e
  | .emptyExtraction => str "No text could be extracted from this file"

/-- `parse_resume_task` (lines 54–201) acting on one candidate row that
was found in the database: the status is set to PROCESSING and committed
*before* the file is read (lines 66–68), then extraction runs; on
success the text/status/cleared-error write is committed and the scoring
stage is enqueued, on failure the FAILED status and message are
committed. Returns the final row, the list of committed rows in order,
and whether scoring was enqueued. -/
def parseResumeTask (c : CandidateRec) (fileFound : Bool) (document : DocContent) :
    CandidateRec × List CandidateRec × Bool :=
  let c1 := { c with status := CandidateStatus.processing }
  if !fileFound then
    let cf := { c1 with status := CandidateStatus.failed,
                        errorMessage := some (parseErrorMessage .fileNotFound) }
    (cf, [c1, cf], false)
  else
    match extractText document with
    | .ok t =>
      let c2 := { c1 with resumeText := some t, status := CandidateStatus.parsed,
                          errorMessage := none }
      (c2, [c1, c2], true)
    | .error e =>
      let cf := { c1 with status := CandidateStatus.failed,
                          errorMessage := some (parseErrorMessage e) }
      (cf, [c1, cf], false)

/-! ## Config generation (`app/schemas/job.py`, `app/services/ai_job_config.py`) -/

/-- A category of the AI's JSON before Pydantic validation: each field is
present or absent. -/
structure RawCategory where
  category_id : Option Str
  name : Option Str
  importance : Option ℤ
  description : Option Str
  examples_of_evidence : Option (List Str)
deriving DecidableEq

/-- The AI's taxonomy JSON before Pydantic validation. The two free-form
`Dict` fields are association lists whose content Pydantic does not
constrain. -/
structure RawJobConfig where
  title : Option Str
  seniority_level : Option Str
  role_summary : Option Str
  core_responsibilities : Option (List Str)
  categories : Option (List RawCategory)
  desired_background_patterns : Option (List (Str × Str))
  education_preferences : Option (List (Str × Str))
deriving DecidableEq

/-- Validated `JobCategory` (`app/schemas/job.py`, lines 15–21). -/
structure JobCategory where
  category_id : Str
  name : Str
  importance : ℤ
  description : Str
  examples_of_evidence : List Str
deriving DecidableEq

/-- Validated `JobConfigSchema` (`app/schemas/job.py`, lines 24–36). -/
structure JobConfigSchema where
  job_id : Option ℕ
  title : Str
  seniority_level : Str
  role_summary : Str
  core_responsibilities : List Str
  categories : List JobCategory
  desired_background_patterns : List (Str × Str)
  education_preferences : List (Str × Str)
deriving DecidableEq

/-- Pydantic validation of one category: every field required,
`importance` constrained by `Field(..., ge=1, le=5)`. No constraint is
placed on the number of `examples_of_evidence`. -/
def validateCategory (r : RawCategory) : Option JobCategory :=
  match r.category_id, r.name, r.importance, r.description, r.examples_of_evidence with
  | some cid, some n, some imp, some d, some ex =>
    if 1 ≤ imp ∧ imp ≤ 5 then some ⟨cid, n, imp, d, ex⟩ else none
  | _, _, _, _, _ => none

/-- Validate every category in order, failing if any fails. -/
def validateCategories : List RawCategory → Option (List JobCategory)
  | [] => some []
  | r :: rest =>
    match validateCategory r, validateCategories rest with
    | some c, some cs => some (c :: cs)
    | _, _ => none

/-- `JobConfigSchema(**config_data)`: every field except `job_id`
required, categories validated elementwise. No constraint is placed on
the number of categories. -/
def validateJobConfig (r : RawJobConfig) : Option JobConfigSchema :=
  match r.title, r.seniority_level, r.role_summary, r.core_responsibilities,
        r.categories, r.desired_background_patterns, r.education_preferences with
  | some t, some sl, some rs, some cr, some cats, some dbp, some ep =>
    match validateCategories cats with
    | some vcats => some ⟨none, t, sl, rs, cr, vcats, dbp, ep⟩
    | none => none
  | _, _, _, _, _, _, _ => none

/-- What one OpenAI call yields, as `generate_job_config` distinguishes
the cases: a transport-level exception, empty content, non-JSON content,
or parsed JSON. -/
inductive AIResponse where
  | netError (msg : Str)
  | empty
  | badJson (msg : Str)
  | json (r : RawJobConfig)
deriving DecidableEq

/-- The terminal `JobConfigGenerationError` variants, each keeping the
attempt count and the last underlying message the f-string interpolates. -/
inductive GenError where
  | invalidJsonAfter (attempts : ℕ) (lastMsg : Str)
  | failedAfter (attempts : ℕ) (lastMsg : Str)
  | exhausted (attempts : ℕ)
deriving DecidableEq

/-- Decimal rendering of a numeral, for message interpolation. -/
def natToStr (n : ℕ) : Str := Nat.toDigits 10 n

/-- Rendered `str(e)` of a `GenError`. -/
def genErrorMsg : GenError → Str
  | .invalidJsonAfter n last =>
    str "Invalid JSON after " ++ natToStr n ++ str " attempts: " ++ last
  | .failedAfter n last =>
    str "Failed after " ++ natToStr n ++ str " attempts: " ++ last
  | .exhausted n =>
    str "Failed to generate config after " ++ natToStr n ++ str " attempts"

/-- One loop body of `generate_job_config`: the `try` block up to its
exception classification. `json.JSONDecodeError` is caught by the first
`except`; the empty-content `JobConfigGenerationError`, Pydantic's
`ValidationError` and transport errors are all caught by the generic
`except Exception`. The boolean marks the JSON-decode branch. -/
def attemptOutcome (resp : AIResponse) : Except (Bool × Str) JobConfigSchema :=
  match resp with
  | .netError m => .error (false, m)
  | .empty => .error (false, str "Empty response from OpenAI")
  | .badJson m => .error (true, m)
  | .json r =>
    match validateJobConfig r with
    | some cfg => .ok cfg
    | none => .error (false, str "validation error")

/-- The retry loop of `generate_job_config` (lines 104–146): up to
`maxRetries` attempts, raising on the last failed attempt and otherwise
sleeping `2 ** attempt` seconds before the next one. The oracle
`attempts` gives each call's response; the result carries the list of
sleep durations performed, in order. The fuel equals the remaining loop
iterations, so the fuel-0 case is the unreachable final `raise`. -/
def genGo (attempts : ℕ → AIResponse) (maxRetries attempt fuel : ℕ) :
    Except GenError JobConfigSchema × List ℕ :=
  match fuel with
  | 0 => (.error (.exhausted maxRetries), [])
  | fuel' + 1 =>
    match attemptOutcome (attempts attempt) with
    | .ok cfg => (.ok cfg, [])
    | .error (isJsonErr, msg) =>
      if attempt = maxRetries - 1 then
        (.error (if isJsonErr then .invalidJsonAfter maxRetries msg
                 else .failedAfter maxRetries msg), [])
      else
        let rest := genGo attempts maxRetries (attempt + 1) fuel'
        (rest.1, 2 ^ attempt :: rest.2)

/-- `generate_job_config(title, description, max_retries=3)` with the
OpenAI call abstracted into the per-attempt oracle. -/
def generateJobConfig (attempts : ℕ → AIResponse) (maxRetries : ℕ := 3) :
    Except GenError JobConfigSchema × List ℕ :=
  genGo attempts maxRetries 0 maxRetries

/-! ## Job rows and status updates (`app/models/job.py`, `app/crud/job.py`,
`app/tasks/job_tasks.py`) -/

/-- `JobStatus`. -/
inductive JobStatus where
  | pending | processing | completed | failed
deriving DecidableEq

/-- One row of the `jobs` table (the fields the pipeline touches). -/
structure JobRec where
  id : ℕ
  title : Str
  description : Str
  status : JobStatus
  errorMessage : Option Str
  jobConfig : Option JobConfigSchema
deriving DecidableEq

/-- `job_crud.update_status` (lines 98–130): set the status; set the
error message when one is passed, clear it when none is passed *and* the
new status is COMPLETED, and otherwise leave it untouched. -/
def updateStatus (job : JobRec) (status : JobStatus)
    (errorMessage : Option Str := none) : JobRec :=
  { job with
    status := status,
    errorMessage :=
      match errorMessage with
      | some m => some m
      | none => if status = JobStatus.completed then none else job.errorMessage }

/-- `job_crud.update_config` (lines 133–160): attach the config, mark
COMPLETED, clear the error message. -/
def updateConfig (job : JobRec) (config : JobConfigSchema) : JobRec :=
  { job with jobConfig := some config, status := JobStatus.completed,
             errorMessage := none }

/-- `generate_job_config_task` (lines 19–85) for a job found in the
database: mark PROCESSING, run generation; on success stamp `job_id`
into the config and persist it with COMPLETED, on
`JobConfigGenerationError` mark FAILED with `str(e)`. Returns the final
row and the sleep trace of the generation. -/
def generateJobConfigTask (job : JobRec) (attempts : ℕ → AIResponse) :
    JobRec × List ℕ :=
  let job1 := updateStatus job JobStatus.processing
  let gen := generateJobConfig attempts 3
  match gen.1 with
  | .ok cfg => (updateConfig job1 { cfg with job_id := some job.id }, gen.2)
  | .error e => (updateStatus job1 JobStatus.failed (some (genErrorMsg e)), gen.2)

/-! # Theorems -/

/-! ## Shared helper lemmas -/

/-- Removing the first element satisfying `p` drops the head of the
`p`-filtered sublist. -/
theorem filter_eraseP_eq_tail {α} (p : α → Bool) (l : List α) :
    (l.eraseP p).filter p = (l.filter p).tail := by
  induction l with
  | nil => rfl
  | cons a l ih =>
    by_cases hp : p a
    · simp [List.eraseP_cons, List.filter_cons, hp]
    · simp [List.eraseP_cons, List.filter_cons, hp, ih]

/-- With at most one matching row present, replacing leaves exactly the
new row as the match. -/
theorem saveEvaluation_filter (evals : List EvalRecord) (newEval : EvalRecord)
    (hinv : evals.countP (fun e => e.candidateId == newEval.candidateId) ≤ 1) :
    (saveEvaluation evals newEval).filter
      (fun e => e.candidateId == newEval.candidateId) = [newEval] := by
  unfold saveEvaluation
  rw [List.filter_append, filter_eraseP_eq_tail]
  have hlen : (evals.filter (fun e => e.candidateId == newEval.candidateId)).length ≤ 1 := by
    simpa [List.countP_eq_length_filter] using hinv
  have htail : (evals.filter (fun e => e.candidateId == newEval.candidateId)).tail = [] := by
    cases h : evals.filter (fun e => e.candidateId == newEval.candidateId) with
    | nil => rfl
    | cons x xs =>
      rw [h] at hlen
      simp at hlen
      simp [hlen]
  rw [htail]
  simp

/-- A prepended non-matching entry changes no grade lookup. -/
theorem lookupGrade_cons_of_ne (e : Str × AIValue) (ai : AIScores) (name : Str)
    (h1 : e.1 ≠ name) (h2 : pyLower e.1 ≠ pyLower name) :
    lookupGrade (e :: ai) name = lookupGrade ai name := by
  have h1' : (e.1 == name) = false := by simpa using h1
  have h2' : (pyLower e.1 == pyLower name) = false := by simpa using h2
  simp [lookupGrade, List.find?, h1', h2']

/-! ## C1 — weighted-average match score -/

/-- C1 (counterexample): the claim says the computed `match_score` equals
the rounded weighted average *clamped to [0,100]*. With the one-category
taxonomy `[{Backend, importance 1}]` and AI grade `{Backend: 200}` the
code computes `200.0` (`2000` tenths) while the claimed clamped value is
`100.0` (`1000` tenths): the code never clamps. -/
theorem claim_C1_counterexample :
    finalMatchScore [⟨some (str "Backend"), some 1⟩]
        [(str "Backend", .obj (some 200) none)] = 2000 ∧
    specMatchScoreClamped [⟨some (str "Backend"), some 1⟩]
        [(str "Backend", .obj (some 200) none)] = 1000 ∧
    (2000 : ℤ) ≠ 1000 := by
  refine ⟨by decide, by decide, by decide⟩

/-- C1 (amended): for every taxonomy with nonnegative total importance
and every AI grade map, the computed `match_score` equals
`round(Σ score_i·importance_i / Σ importance_i, 1)` (in tenths), is `0`
when `Σ importance_i = 0`, and is independent of category order; no
clamping to `[0,100]` is applied. -/
theorem claim_C1_match_score_formula (cats cats' : List Category) (ai : AIScores)
    (hnn : 0 ≤ totalImportance cats) (hperm : cats.Perm cats') :
    finalMatchScore cats ai = specMatchScoreNoClamp cats ai ∧
    finalMatchScore cats' ai = finalMatchScore cats ai := by
  have hW : totalWeightedScore cats ai = totalWeightedScore cats' ai :=
    (hperm.map (fun c => scoreFor ai c * c.catImportance)).sum_eq
  have hT : totalImportance cats = totalImportance cats' :=
    (hperm.map Category.catImportance).sum_eq
  constructor
  · unfold finalMatchScore specMatchScoreNoClamp
    rcases lt_or_eq_of_le hnn with h | h
    · rw [if_pos h, if_neg (by omega)]
    · rw [if_neg (by omega), if_pos (by omega)]
  · unfold finalMatchScore
    rw [hW, hT]

/-- C1 (witness): the spec's own concrete scenario, plus its reversal:
`[{Backend,5},{Leadership,1}]`, grades `{Backend: 80, Leadership: 40}`
give `73.3` either way. -/
theorem claim_C1_witness :
    (finalMatchScore
        [⟨some (str "Backend"), some 5⟩, ⟨some (str "Leadership"), some 1⟩]
        [(str "Backend", .obj (some 80) none), (str "Leadership", .obj (some 40) none)]
      = specMatchScoreNoClamp
        [⟨some (str "Backend"), some 5⟩, ⟨some (str "Leadership"), some 1⟩]
        [(str "Backend", .obj (some 80) none), (str "Leadership", .obj (some 40) none)] ∧
     finalMatchScore
        [⟨some (str "Leadership"), some 1⟩, ⟨some (str "Backend"), some 5⟩]
        [(str "Backend", .obj (some 80) none), (str "Leadership", .obj (some 40) none)]
      = finalMatchScore
        [⟨some (str "Backend"), some 5⟩, ⟨some (str "Leadership"), some 1⟩]
        [(str "Backend", .obj (some 80) none), (str "Leadership", .obj (some 40) none)]) ∧
    finalMatchScore
        [⟨some (str "Backend"), some 5⟩, ⟨some (str "Leadership"), some 1⟩]
        [(str "Backend", .obj (some 80) none), (str "Leadership", .obj (some 40) none)]
      = 733 :=
  ⟨claim_C1_match_score_formula _ _ _ (by decide) (by decide), by decide⟩

/-! ## C2 — taxonomy-authoritative lookup -/

/-- C2: grade lookup is exact-name first with case-insensitive fallback
(it coincides with the spec-side lookup); a category the AI omitted
contributes score `0` to the numerator while its importance still enters
the denominator; and an AI entry matching no taxonomy category (neither
exactly nor case-insensitively) contributes nothing to the score. -/
theorem claim_C2_lookup_and_defaults (cats : List Category) (ai : AIScores)
    (c : Category) (e : Str × AIValue)
    (hmiss : lookupGrade ai c.catName = none)
    (hext : ∀ c' ∈ cats, e.1 ≠ Category.catName c' ∧
                          pyLower e.1 ≠ pyLower (Category.catName c')) :
    (∀ name, lookupGrade ai name = specLookup ai name) ∧
    totalWeightedScore (c :: cats) ai = totalWeightedScore cats ai ∧
    totalImportance (c :: cats) = c.catImportance + totalImportance cats ∧
    finalMatchScore cats (e :: ai) = finalMatchScore cats ai := by
  refine ⟨fun name => rfl, ?_, ?_, ?_⟩
  · simp [totalWeightedScore, scoreFor, hmiss, extractScore]
  · simp [totalImportance]
  · have hlk : ∀ c' ∈ cats, lookupGrade (e :: ai) c'.catName = lookupGrade ai c'.catName :=
      fun c' hc' => lookupGrade_cons_of_ne e ai c'.catName (hext c' hc').1 (hext c' hc').2
    have hW : totalWeightedScore cats (e :: ai) = totalWeightedScore cats ai := by
      unfold totalWeightedScore
      exact congrArg List.sum
        (List.map_congr_left fun c' hc' => by rw [scoreFor, scoreFor, hlk c' hc'])
    unfold finalMatchScore
    rw [hW]

/-- C2 (witness): taxonomy `[{Backend,5}]`, AI map `{"backend": 80}`
(case-insensitive hit), omitted category `{Leadership,1}`, and an extra
AI entry `"Extra"` that matches nothing. -/
theorem claim_C2_witness :
    lookupGrade [(str "backend", .obj (some 80) none)] (str "Backend")
      = specLookup [(str "backend", .obj (some 80) none)] (str "Backend") ∧
    totalWeightedScore
        (⟨some (str "Leadership"), some 1⟩ :: [⟨some (str "Backend"), some 5⟩])
        [(str "backend", .obj (some 80) none)]
      = totalWeightedScore [⟨some (str "Backend"), some 5⟩]
        [(str "backend", .obj (some 80) none)] ∧
    totalImportance (⟨some (str "Leadership"), some 1⟩ :: [⟨some (str "Backend"), some 5⟩])
      = Category.catImportance ⟨some (str "Leadership"), some 1⟩
        + totalImportance [⟨some (str "Backend"), some 5⟩] ∧
    finalMatchScore [⟨some (str "Backend"), some 5⟩]
        ((str "Extra", .obj (some 99) none) :: [(str "backend", .obj (some 80) none)])
      = finalMatchScore [⟨some (str "Backend"), some 5⟩]
        [(str "backend", .obj (some 80) none)] := by
  have h := claim_C2_lookup_and_defaults [⟨some (str "Backend"), some 5⟩]
    [(str "backend", .obj (some 80) none)] ⟨some (str "Leadership"), some 1⟩
    (str "Extra", .obj (some 99) none) (by decide) (by decide)
  exact ⟨h.1 (str "Backend"), h.2.1, h.2.2.1, h.2.2.2⟩

/-! ## C10 — missing importance defaults to 1 -/

/-- C10: a category whose stored config entry lacks the `importance`
field gets weight 1 (`category.get("importance", 1)`), both as its
multiplier and in the denominator: scoring behaves exactly as if the
category had `importance = 1`, wherever it sits in the taxonomy. -/
theorem claim_C10_missing_importance_defaults_to_one
    (pre post : List Category) (n : Option Str) (ai : AIScores) :
    Category.catImportance ⟨n, none⟩ = 1 ∧
    totalImportance (pre ++ ⟨n, none⟩ :: post)
      = totalImportance (pre ++ ⟨n, some 1⟩ :: post) ∧
    finalMatchScore (pre ++ ⟨n, none⟩ :: post) ai
      = finalMatchScore (pre ++ ⟨n, some 1⟩ :: post) ai := by
  refine ⟨rfl, ?_, ?_⟩
  · simp [totalImportance, Category.catImportance]
  · simp [finalMatchScore, totalWeightedScore, totalImportance, scoreFor,
          Category.catImportance, Category.catName]

/-! ## C3 — idempotent re-scoring -/

/-- C3: starting from a table satisfying the uniqueness invariant (at
most one evaluation per candidate), scoring the candidate any positive
number of times leaves exactly one evaluation for that candidate id,
and it is the one written by the latest run. -/
theorem claim_C3_rescoring_idempotent (evals runs : List EvalRecord)
    (cid : ℕ) (lastEval : EvalRecord)
    (hinv : evals.countP (fun e => e.candidateId == cid) ≤ 1)
    (hcid : ∀ e ∈ runs, e.candidateId = cid)
    (hlast : runs.getLast? = some lastEval) :
    (runs.foldl saveEvaluation evals).filter (fun e => e.candidateId == cid)
      = [lastEval] ∧
    (runs.foldl saveEvaluation evals).countP (fun e => e.candidateId == cid) = 1 := by
  suffices h : (runs.foldl saveEvaluation evals).filter
      (fun e => e.candidateId == cid) = [lastEval] by
    refine ⟨h, ?_⟩
    rw [List.countP_eq_length_filter, h]
    rfl
  induction runs generalizing evals with
  | nil => simp at hlast
  | cons r rest ih =>
    have hr : r.candidateId = cid := hcid r (by simp)
    have hsave : (saveEvaluation evals r).filter (fun e => e.candidateId == cid) = [r] := by
      have := saveEvaluation_filter evals r (by rw [hr]; exact hinv)
      rw [hr] at this
      exact this
    cases rest with
    | nil =>
      simp at hlast
      subst hlast
      simpa using hsave
    | cons r2 rest2 =>
      have hlast2 : (r2 :: rest2).getLast? = some lastEval := by
        rw [← hlast]
        rfl
      have hinv2 : (saveEvaluation evals r).countP (fun e => e.candidateId == cid) ≤ 1 := by
        rw [List.countP_eq_length_filter, hsave]
        exact le_refl 1
      exact ih (saveEvaluation evals r) hinv2
        (fun e he => hcid e (by simp [he])) hlast2

/-- C3 (witness): scoring candidate 7 twice on an initially empty table
leaves exactly the second run's row. -/
theorem claim_C3_witness :
    (([⟨1, 7, 500, [], str "first", [], []⟩,
       ⟨1, 7, 733, [], str "second", [], []⟩] : List EvalRecord).foldl
        saveEvaluation []).filter (fun e => e.candidateId == 7)
      = [⟨1, 7, 733, [], str "second", [], []⟩] ∧
    (([⟨1, 7, 500, [], str "first", [], []⟩,
       ⟨1, 7, 733, [], str "second", [], []⟩] : List EvalRecord).foldl
        saveEvaluation []).countP (fun e => e.candidateId == 7) = 1 :=
  claim_C3_rescoring_idempotent []
    [⟨1, 7, 500, [], str "first", [], []⟩, ⟨1, 7, 733, [], str "second", [], []⟩]
    7 ⟨1, 7, 733, [], str "second", [], []⟩ (by decide) (by decide) (by decide)

/-! ## C4 — quota-gated admission -/

/-- C4 (counterexample): the claim says the usage counter is incremented
*atomically with record creation*. A successful upload performs two
separate `db.commit()`s: mapping each committed state to (number of
candidate rows, usage counter) gives `[(1, 3), (1, 4)]` from a state
with 0 rows and counter 3 — the first durable state already contains
the new Candidate while the counter still reads 3, so creation and
increment are not atomic. -/
theorem claim_C4_counterexample :
    ((uploadResume ⟨true, true, true, true, 42, str "uploads/abc.pdf"⟩
        ⟨1, str "cv.pdf", str ".pdf", str "application/pdf", none, none, none⟩
        ⟨[], [], ⟨.active, 10, 3⟩, []⟩).2.2.map
      (fun s => (s.candidates.length, s.subscription.candidatesUsedThisMonth)))
      = [(1, 3), (1, 4)] ∧
    ((⟨[], [], ⟨.active, 10, 3⟩, []⟩ : SysState).candidates.length,
     (⟨[], [], ⟨.active, 10, 3⟩, []⟩ : SysState).subscription.candidatesUsedThisMonth)
      = (0, 3) := by
  refine ⟨by decide, by decide⟩

/-- C4 (amended): for an active subscription (the route dependency
guarantees activity) and a request that passed the rate limiter: at the
ceiling, the upload is rejected with 402 before any file is stored, any
Candidate row is created or any task is enqueued, with no commit and
the counter unchanged; below the ceiling (with the job present, an
allowed content type and healthy storage/DB) exactly one Candidate row
is appended, the counter is incremented by exactly one — once, in a
second commit that follows (never precedes) the row-creating commit —
and one parse task is enqueued. -/
theorem claim_C4_quota_gate (env : UploadEnv) (req : UploadRequest) (st : SysState)
    (hrate : env.rateLimitOk = true)
    (hactive : st.subscription.isActive = true) :
    (st.subscription.monthlyCandidateLimit ≤ st.subscription.candidatesUsedThisMonth →
      uploadResume env req st = (.error .quotaExceeded, st, []) ∧
      UploadError.statusCode .quotaExceeded = 402) ∧
    (st.subscription.candidatesUsedThisMonth < st.subscription.monthlyCandidateLimit →
     env.jobExistsForTenant = true →
     ALLOWED_CONTENT_TYPES.contains req.contentType = true →
     env.storageOk = true → env.dbOk = true →
      uploadResume env req st =
        (.ok env.newCandidateId,
         { storedFiles := st.storedFiles ++ [env.storedFileRef],
           candidates := st.candidates ++ [newCandidate env req],
           subscription := { st.subscription with candidatesUsedThisMonth :=
               st.subscription.candidatesUsedThisMonth + 1 },
           parseQueue := st.parseQueue ++ [env.newCandidateId] },
         [{ st with storedFiles := st.storedFiles ++ [env.storedFileRef],
                    candidates := st.candidates ++ [newCandidate env req] },
          { storedFiles := st.storedFiles ++ [env.storedFileRef],
            candidates := st.candidates ++ [newCandidate env req],
            subscription := { st.subscription with candidatesUsedThisMonth :=
                st.subscription.candidatesUsedThisMonth + 1 },
            parseQueue := st.parseQueue }])) := by
  constructor
  · intro hceil
    have hno : st.subscription.canUploadCandidate = false := by
      simp [Subscription.canUploadCandidate, hactive]
      omega
    refine ⟨?_, rfl⟩
    simp [uploadResume, hrate, hno]
  · intro hbelow hjob hct hstore hdb
    have hyes : st.subscription.canUploadCandidate = true := by
      simp [Subscription.canUploadCandidate, hactive]
      omega
    have hmem : req.contentType ∈ ALLOWED_CONTENT_TYPES := by simpa using hct
    simp [uploadResume, hrate, hyes, hjob, hmem, hstore, hdb, newCandidate]

/-- C4 (witness): with limit 10, an upload at counter 10 is rejected
with 402 and nothing changes; an upload at counter 3 appends candidate
42 and commits the incremented counter 4 in the second commit. -/
theorem claim_C4_witness :
    uploadResume ⟨true, true, true, true, 42, str "uploads/abc.pdf"⟩
        ⟨1, str "cv.pdf", str ".pdf", str "application/pdf", none, none, none⟩
        ⟨[], [], ⟨.active, 10, 10⟩, []⟩
      = (.error .quotaExceeded, ⟨[], [], ⟨.active, 10, 10⟩, []⟩, []) ∧
    UploadError.statusCode .quotaExceeded = 402 ∧
    uploadResume ⟨true, true, true, true, 42, str "uploads/abc.pdf"⟩
        ⟨1, str "cv.pdf", str ".pdf", str "application/pdf", none, none, none⟩
        ⟨[], [], ⟨.active, 10, 3⟩, []⟩
      = (.ok 42,
         ⟨[str "uploads/abc.pdf"],
          [⟨42, 1, none, none, none, str "cv.pdf", str "uploads/abc.pdf", none,
            .uploaded, none⟩],
          ⟨.active, 10, 4⟩, [42]⟩,
         [⟨[str "uploads/abc.pdf"],
           [⟨42, 1, none, none, none, str "cv.pdf", str "uploads/abc.pdf", none,
             .uploaded, none⟩],
           ⟨.active, 10, 3⟩, []⟩,
          ⟨[str "uploads/abc.pdf"],
           [⟨42, 1, none, none, none, str "cv.pdf", str "uploads/abc.pdf", none,
             .uploaded, none⟩],
           ⟨.active, 10, 4⟩, []⟩]) := by
  have h1 := (claim_C4_quota_gate ⟨true, true, true, true, 42, str "uploads/abc.pdf"⟩
    ⟨1, str "cv.pdf", str ".pdf", str "application/pdf", none, none, none⟩
    ⟨[], [], ⟨.active, 10, 10⟩, []⟩ rfl (by decide)).1 (by decide)
  have h2 := (claim_C4_quota_gate ⟨true, true, true, true, 42, str "uploads/abc.pdf"⟩
    ⟨1, str "cv.pdf", str ".pdf", str "application/pdf", none, none, none⟩
    ⟨[], [], ⟨.active, 10, 3⟩, []⟩ rfl (by decide)).2 (by decide) rfl (by decide) rfl rfl
  exact ⟨h1.1, h1.2, h2⟩

/-! ## C5 — extraction caps truncate -/

/-- The PDF page loop never grows the accumulator beyond `MAX_CHARS`. -/
theorem pdfAccum_length_le (ps : List Str) (acc : Str) (h : acc.length ≤ MAX_CHARS) :
    (pdfAccum ps acc).length ≤ MAX_CHARS := by
  induction ps generalizing acc with
  | nil => exact h
  | cons p ps ih =>
    by_cases hp : p.isEmpty
    · rw [pdfAccum, if_pos hp]
      exact ih acc h
    · rw [pdfAccum, if_neg hp]
      show (if MAX_CHARS < (acc ++ p ++ ['\n']).length
            then (acc ++ p ++ ['\n']).take MAX_CHARS
            else pdfAccum ps (acc ++ p ++ ['\n'])).length ≤ MAX_CHARS
      by_cases hlen : MAX_CHARS < (acc ++ p ++ ['\n']).length
      · rw [if_pos hlen]
        simp [List.length_take]
      · rw [if_neg hlen]
        exact ih _ (by omega)

/-- The emptiness gate passes text through unchanged. -/
theorem finishExtraction_ok (s t : Str) (h : finishExtraction s = .ok t) : t = s := by
  unfold finishExtraction at h
  split at h
  · exact absurd h (by simp)
  · injection h with h
    exact h.symm

/-- Leading whitespace is fully dropped from an all-blank run. -/
theorem dropWhile_ws_replicate_space (n : ℕ) :
    (List.replicate n ' ').dropWhile Char.isWhitespace = [] := by
  induction n with
  | zero => rfl
  | succ n ih =>
    rw [List.replicate_succ, List.dropWhile_cons,
        if_pos (show Char.isWhitespace ' ' = true from by decide)]
    exact ih

/-- Non-whitespace runs survive `dropWhile`. -/
theorem dropWhile_ws_replicate_a (n : ℕ) :
    (List.replicate n 'a').dropWhile Char.isWhitespace = List.replicate n 'a' := by
  cases n with
  | zero => rfl
  | succ n =>
    rw [List.replicate_succ, List.dropWhile_cons]
    simp [show Char.isWhitespace 'a' = false from by decide]

/-- `str.strip()` keeps a non-whitespace run intact. -/
theorem pyStrip_replicate_a (n : ℕ) :
    pyStrip (List.replicate n 'a') = List.replicate n 'a' := by
  simp [pyStrip, dropWhile_ws_replicate_a, List.reverse_replicate]

/-- C5 (counterexample): the claim says every document whose content
exceeds the caps is extracted successfully (truncated, not an error).
A DOCX of 25001 spaces exceeds `MAX_CHARS`, yet extraction fails with
the blank-text `ValueError` (`emptyExtraction`) instead of succeeding. -/
theorem claim_C5_counterexample :
    MAX_CHARS < (List.replicate 25001 ' ').length ∧
    extractText (.docx (List.replicate 25001 ' ')) = .error .emptyExtraction := by
  constructor
  · rw [List.length_replicate]
    decide
  · have htake : (List.replicate 25001 ' ').take MAX_CHARS = List.replicate 25000 ' ' := by
      rw [MAX_CHARS, List.take_replicate,
          show min 25000 25001 = 25000 from by decide]
    have hstrip : pyStrip (List.replicate 25000 ' ') = [] := by
      unfold pyStrip
      rw [dropWhile_ws_replicate_space]
      rfl
    show finishExtraction ((List.replicate 25001 ' ').take MAX_CHARS)
        = .error .emptyExtraction
    rw [htake]
    unfold finishExtraction
    rw [hstrip]
    rfl

/-- C5 (amended): any successful extraction stores at most `MAX_CHARS`
characters; a PDF is extracted exactly as if only its first `MAX_PAGES`
pages existed; and a DOCX longer than the cap whose truncation is not
blank succeeds with the text truncated to exactly `MAX_CHARS`
characters — but an over-cap document whose truncated text is blank
after stripping fails with `emptyExtraction` (see the counterexample). -/
theorem claim_C5_truncation (d : DocContent) (t full : Str) (pages : List Str)
    (hok : extractText d = .ok t)
    (hlong : MAX_CHARS < full.length)
    (hnb : (pyStrip (full.take MAX_CHARS)).isEmpty = false) :
    t.length ≤ MAX_CHARS ∧
    extractText (.docx full) = .ok (full.take MAX_CHARS) ∧
    (full.take MAX_CHARS).length = MAX_CHARS ∧
    extractText (.pdf pages) = extractText (.pdf (pages.take MAX_PAGES)) := by
  refine ⟨?_, ?_, ?_, ?_⟩
  · cases d with
    | pdf p =>
      have ht : t = extractPdf p := finishExtraction_ok _ _ hok
      rw [ht, extractPdf]
      exact pdfAccum_length_le _ _ (by simp)
    | docx f =>
      have ht : t = extractDocx f := finishExtraction_ok _ _ hok
      rw [ht, extractDocx]
      simp
    | doc => simp [extractText] at hok
    | unknown e => simp [extractText] at hok
  · simp [extractText, extractDocx, finishExtraction, hnb]
  · simp [List.length_take]
    omega
  · simp [extractText, extractPdf, List.take_take]

/-- C5 (witness): a DOCX of 30000 letters is truncated to exactly 25000
characters and succeeds; a one-page PDF is unchanged by the page cap. -/
theorem claim_C5_witness :
    ((List.replicate 30000 'a').take MAX_CHARS).length ≤ MAX_CHARS ∧
    extractText (.docx (List.replicate 30000 'a'))
      = .ok ((List.replicate 30000 'a').take MAX_CHARS) ∧
    ((List.replicate 30000 'a').take MAX_CHARS).length = MAX_CHARS ∧
    extractText (.pdf [str "page"]) = extractText (.pdf ([str "page"].take MAX_PAGES)) := by
  have htake : (List.replicate 30000 'a').take MAX_CHARS = List.replicate 25000 'a' := by
    rw [MAX_CHARS, List.take_replicate,
        show min 25000 30000 = 25000 from by decide]
  have hok : extractText (.docx (List.replicate 30000 'a'))
      = .ok ((List.replicate 30000 'a').take MAX_CHARS) := by
    show finishExtraction ((List.replicate 30000 'a').take MAX_CHARS)
        = .ok ((List.replicate 30000 'a').take MAX_CHARS)
    rw [htake]
    unfold finishExtraction
    rw [pyStrip_replicate_a]
    rfl
  have hlong : MAX_CHARS < (List.replicate 30000 'a').length := by
    rw [List.length_replicate]
    decide
  have hnb : (pyStrip ((List.replicate 30000 'a').take MAX_CHARS)).isEmpty = false := by
    rw [htake, pyStrip_replicate_a]
    rfl
  exact claim_C5_truncation (.docx (List.replicate 30000 'a'))
    ((List.replicate 30000 'a').take MAX_CHARS) (List.replicate 30000 'a')
    [str "page"] hok hlong hnb

/-! ## C6 — config-generation retry exhaustion -/

/-- C6 (counterexample): the claim says the generator sleeps "1s, 2s, 4s"
between attempts. When every attempt times out, the performed sleep
trace is `[1, 2]` — there are only two gaps between three attempts and
a 4-second sleep never occurs. -/
theorem claim_C6_counterexample :
    (generateJobConfig (fun _ => .netError (str "timeout")) 3).2 = [1, 2] ∧
    (generateJobConfig (fun _ => .netError (str "timeout")) 3).2 ≠ [1, 2, 4] ∧
    4 ∉ (generateJobConfig (fun _ => .netError (str "timeout")) 3).2 := by
  refine ⟨by decide, by decide, by decide⟩

/-- C6 (amended): when every Inference call fails transiently (messages
`msgs i`), generation makes exactly 3 attempts sleeping 1s then 2s
(`2^attempt`) between consecutive attempts, surfaces a terminal error
carrying the last attempt's message, and the task then marks the Job
Failed with that rendered message while leaving `config` untouched (no
partial config). Malformed JSON exhausts the same way with the
JSON-specific terminal error. -/
theorem claim_C6_retry_exhaustion (msgs : ℕ → Str) (job : JobRec) :
    generateJobConfig (fun i => .netError (msgs i)) 3
      = (.error (.failedAfter 3 (msgs 2)), [1, 2]) ∧
    (generateJobConfigTask job (fun i => .netError (msgs i))).1.status
      = JobStatus.failed ∧
    (generateJobConfigTask job (fun i => .netError (msgs i))).1.errorMessage
      = some (genErrorMsg (.failedAfter 3 (msgs 2))) ∧
    (generateJobConfigTask job (fun i => .netError (msgs i))).1.jobConfig
      = job.jobConfig ∧
    generateJobConfig (fun i => .badJson (msgs i)) 3
      = (.error (.invalidJsonAfter 3 (msgs 2)), [1, 2]) :=
  ⟨rfl, rfl, rfl, rfl, rfl⟩

/-! ## C7 — transition into Processing and stale error messages -/

/-- C7: the claim (and `update_status`'s own docstring, "cleared if
None") says moving a Job into Processing clears a stale error message.
For a Failed job carrying `error_message = "AI generation failed"`,
`update_status(job, PROCESSING)` sets the status but leaves the stale
message in place — the clearing `elif` only fires for COMPLETED. -/
theorem claim_C7_stale_error_survives_processing :
    (updateStatus ⟨5, str "t", str "d", JobStatus.failed,
        some (str "AI generation failed"), none⟩ JobStatus.processing none).status
      = JobStatus.processing ∧
    (updateStatus ⟨5, str "t", str "d", JobStatus.failed,
        some (str "AI generation failed"), none⟩ JobStatus.processing none).errorMessage
      = some (str "AI generation failed") ∧
    (updateStatus ⟨5, str "t", str "d", JobStatus.failed,
        some (str "AI generation failed"), none⟩ JobStatus.completed none).errorMessage
      = none :=
  ⟨rfl, rfl, rfl⟩

/-! ## C8 — late duplicate tasks and monotonicity -/

/-- C8 (counterexample): the claim says a late-arriving duplicate task
for a terminal-status entity is a no-op and never moves the status
backward. Re-delivering the parse task for a SCORED candidate commits
PROCESSING (a backward move), re-extracts to PARSED, and re-enqueues
scoring. -/
theorem claim_C8_counterexample :
    ((parseResumeTask ⟨9, 1, none, none, none, str "cv.pdf", str "uploads/cv.pdf",
        some (str "old text"), CandidateStatus.scored, none⟩ true
        (.pdf [str "new text"])).2.1.map (fun r => r.status))
      = [CandidateStatus.processing, CandidateStatus.parsed] ∧
    (⟨9, 1, none, none, none, str "cv.pdf", str "uploads/cv.pdf",
        some (str "old text"), CandidateStatus.scored, none⟩ : CandidateRec).status
      = CandidateStatus.scored ∧
    (parseResumeTask ⟨9, 1, none, none, none, str "cv.pdf", str "uploads/cv.pdf",
        some (str "old text"), CandidateStatus.scored, none⟩ true
        (.pdf [str "new text"])).2.2 = true := by
  refine ⟨by decide, by decide, by decide⟩

/-- C8 (amended): a duplicate parse task for an existing candidate is
*not* a no-op: whatever the current status (terminal or not), the task
first commits PROCESSING, then re-runs extraction and commits a final
PARSED or FAILED row; the outcome is independent of the prior status,
so redelivery converges to the same final row, but the transition is
not monotonic. -/
theorem claim_C8_duplicate_task_reprocesses (c : CandidateRec)
    (s : CandidateStatus) (fileFound : Bool) (d : DocContent) :
    (parseResumeTask c fileFound d).2.1.map (fun r => r.status)
      = [CandidateStatus.processing, (parseResumeTask c fileFound d).1.status] ∧
    ((parseResumeTask c fileFound d).1.status = CandidateStatus.parsed ∨
     (parseResumeTask c fileFound d).1.status = CandidateStatus.failed) ∧
    parseResumeTask { c with status := s } fileFound d
      = parseResumeTask c fileFound d := by
  cases fileFound with
  | false => exact ⟨rfl, Or.inr rfl, rfl⟩
  | true =>
    cases hext : extractText d with
    | ok t =>
      refine ⟨?_, Or.inl ?_, ?_⟩ <;> simp [parseResumeTask, hext]
    | error e =>
      refine ⟨?_, Or.inr ?_, ?_⟩ <;> simp [parseResumeTask, hext]

/-! ## C9 — taxonomy validation bounds -/

/-- A validated category's importance is within `[1, 5]`. -/
theorem validateCategory_importance (r : RawCategory) (c : JobCategory)
    (h : validateCategory r = some c) : 1 ≤ c.importance ∧ c.importance ≤ 5 := by
  rcases r with ⟨cid, n, imp, d, ex⟩
  cases cid <;> cases n <;> cases imp <;> cases d <;> cases ex <;>
    simp [validateCategory] at h
  obtain ⟨hb, hc⟩ := h
  subst hc
  exact hb

/-- Every category surviving elementwise validation has its importance
within `[1, 5]`. -/
theorem validateCategories_importance (rs : List RawCategory)
    (cs : List JobCategory) (h : validateCategories rs = some cs) :
    ∀ c ∈ cs, 1 ≤ c.importance ∧ c.importance ≤ 5 := by
  induction rs generalizing cs with
  | nil =>
    unfold validateCategories at h
    injection h with h
    subst h
    intro c hc
    simp at hc
  | cons r rs ih =>
    unfold validateCategories at h
    cases hv : validateCategory r with
    | none => rw [hv] at h; simp at h
    | some c0 =>
      rw [hv] at h
      cases hvs : validateCategories rs with
      | none => rw [hvs] at h; simp at h
      | some cs0 =>
        rw [hvs] at h
        injection h with h
        subst h
        intro c hc
        rcases List.mem_cons.mp hc with rfl | hmem
        · exact validateCategory_importance r c hv
        · exact ih cs0 hvs c hmem

/-- Every category of a validated config has its importance within
`[1, 5]`. -/
theorem validateJobConfig_importance (r : RawJobConfig) (cfg : JobConfigSchema)
    (h : validateJobConfig r = some cfg) :
    ∀ c ∈ cfg.categories, 1 ≤ c.importance ∧ c.importance ≤ 5 := by
  rcases r with ⟨t, sl, rs, cr, cats, dbp, ep⟩
  cases t <;> cases sl <;> cases rs <;> cases cr <;> cases dbp <;>
    cases ep <;> cases cats <;> simp [validateJobConfig] at h
  rename_i catsv
  cases hvs : validateCategories catsv with
  | none => rw [hvs] at h; simp at h
  | some vcats =>
    rw [hvs] at h
    simp at h
    rw [← h]
    exact validateCategories_importance catsv vcats hvs

/-- A successful attempt comes from a parsed JSON that passed
validation. -/
theorem attemptOutcome_ok (resp : AIResponse) (cfg : JobConfigSchema)
    (h : attemptOutcome resp = .ok cfg) :
    ∃ r, resp = .json r ∧ validateJobConfig r = some cfg := by
  cases resp with
  | netError m => simp [attemptOutcome] at h
  | empty => simp [attemptOutcome] at h
  | badJson m => simp [attemptOutcome] at h
  | json r =>
    refine ⟨r, rfl, ?_⟩
    simp only [attemptOutcome] at h
    split at h
    · rename_i cfg0 heq
      injection h with h
      rw [h] at heq
      exact heq
    · exact absurd h (by simp)

/-- The retry loop only ever returns a config some attempt produced. -/
theorem genGo_ok_of_attempt (attempts : ℕ → AIResponse)
    (maxRetries attempt fuel : ℕ) (cfg : JobConfigSchema)
    (h : (genGo attempts maxRetries attempt fuel).1 = .ok cfg) :
    ∃ i, attemptOutcome (attempts i) = .ok cfg := by
  induction fuel generalizing attempt with
  | zero => simp [genGo] at h
  | succ fuel ih =>
    unfold genGo at h
    split at h
    · rename_i cfg0 heq
      simp at h
      exact ⟨attempt, by rw [heq, h]⟩
    · rename_i isJ msg heq
      split at h
      · simp at h
      · exact ih (attempt + 1) (by simpa using h)

/-- C9 (counterexample): the claim says every taxonomy returned
successfully has 4–8 categories with 3–5 evidence examples each, bad
responses being rejected by validation. A response with a single
category carrying zero evidence examples passes validation and is
returned by the generator on its first attempt. -/
theorem claim_C9_counterexample :
    (generateJobConfig (fun _ => .json ⟨some (str "T"), some (str "Senior"),
        some (str "sum"), some [], some [⟨some (str "c1"), some (str "Backend"),
        some 3, some (str "d"), some []⟩], some [], some []⟩) 3).1
      = .ok ⟨none, str "T", str "Senior", str "sum", [],
             [⟨str "c1", str "Backend", 3, str "d", []⟩], [], []⟩ ∧
    ([⟨str "c1", str "Backend", 3, str "d", []⟩] : List JobCategory).length = 1 ∧
    (⟨str "c1", str "Backend", 3, str "d", []⟩ : JobCategory).examples_of_evidence.length
      = 0 := by
  refine ⟨rfl, rfl, rfl⟩

/-- C9 (amended): validation enforces the presence of every schema field
(title, seniority level, role summary, responsibilities, categories,
background patterns, education preferences — encoded structurally in
`JobConfigSchema`) and that each category's importance lies in `[1, 5]`;
any config the generator returns successfully satisfies these bounds.
The 4–8 category count and 3–5 evidence-example count are prompt
guidance only and are not validated (see the counterexample). -/
theorem claim_C9_returned_importance_bounds (attempts : ℕ → AIResponse)
    (cfg : JobConfigSchema)
    (h : (generateJobConfig attempts 3).1 = .ok cfg) :
    ∀ cat ∈ cfg.categories, 1 ≤ cat.importance ∧ cat.importance ≤ 5 := by
  obtain ⟨i, hi⟩ := genGo_ok_of_attempt attempts 3 0 3 cfg h
  obtain ⟨r, _, hv⟩ := attemptOutcome_ok (attempts i) cfg hi
  exact validateJobConfig_importance r cfg hv

/-- C9 (witness): a well-formed response with one importance-3 category
is returned, and the theorem confirms its bounds. -/
theorem claim_C9_witness :
    1 ≤ (⟨str "backend_dev", str "Backend", 3, str "desc",
          [str "e1", str "e2", str "e3"]⟩ : JobCategory).importance ∧
    (⟨str "backend_dev", str "Backend", 3, str "desc",
      [str "e1", str "e2", str "e3"]⟩ : JobCategory).importance ≤ 5 :=
  claim_C9_returned_importance_bounds
    (fun _ => .json ⟨some (str "T"), some (str "Senior"), some (str "sum"),
       some [], some [⟨some (str "backend_dev"), some (str "Backend"), some 3,
       some (str "desc"), some [str "e1", str "e2", str "e3"]⟩], some [], some []⟩)
    ⟨none, str "T", str "Senior", str "sum", [],
     [⟨str "backend_dev", str "Backend", 3, str "desc",
       [str "e1", str "e2", str "e3"]⟩], [], []⟩
    rfl
    ⟨str "backend_dev", str "Backend", 3, str "desc",
     [str "e1", str "e2", str "e3"]⟩
    (by decide)

end ResumeAnalyzer
